import Mathlib

/-!
Verification of the AIWalt interaction orchestrator (`aiwalt/core/assistant.py`),
its dialogue engine (`aiwalt/ai/brain.py`) and the wake-word listener loop
(`aiwalt/audio/wake_word.py`), as a shallow embedding.

Conventions of the embedding:
* Python exceptions are explicit `Except Err` / `Option Err` values; a
  `try/except/finally` block becomes a case split on the error component.
* Each collaborator call (Azure TTS/STT, the Anthropic client, thread start)
  is driven by a behaviour value supplied in an `InteractionEnv`, so theorems
  quantify over every behaviour of the collaborators.
* Observable side effects are collected in a trace of `Event`s.
* Wake-word detectors are numbered by generation: `genRunning.getD g` is the
  `_running` flag of detector `g`; `curGen` is the detector currently bound to
  `self._wake`.
-/

namespace AIWalt

/-- Error payload of a Python exception (the message; the embedding only
tracks identity). -/
abbrev Err := String

/-- `ConversationMessage` from `brain.py`: a role ("user" / "assistant") and
text content. -/
structure ConversationMessage where
  role : String
  content : String
deriving DecidableEq, Repr

/-- `TranscriptionResult` from `stt.py`. -/
structure TranscriptionResult where
  text : String
  success : Bool
  reason : String := ""
deriving DecidableEq, Repr

/-- Python `str.strip()` restricted to ASCII whitespace: drop whitespace from
both ends. -/
def stripStr (s : String) : String :=
  ⟨((s.data.dropWhile Char.isWhitespace).reverse.dropWhile Char.isWhitespace).reverse⟩

/-- Python `str.lower()` (ASCII case mapping; the phrase sets are ASCII). -/
def lowerStr (s : String) : String :=
  ⟨s.data.map Char.toLower⟩

/-- Python `str.rstrip(".")`: drop every trailing `'.'` character. -/
def rstripDot (s : String) : String :=
  ⟨(s.data.reverse.dropWhile (fun c => c = '.')).reverse⟩

/-- The `exit_phrases` set of `Assistant._is_exit_command`. -/
def exitPhrases : List String :=
  ["goodbye", "shut down", "exit", "quit", "power off", "go to sleep"]

/-- The `reset_phrases` set of `Assistant._is_reset_command`. -/
def resetPhrases : List String :=
  ["reset conversation", "clear history", "start over", "new conversation"]

/-- `Assistant._is_exit_command`: lowercase, strip trailing dots, test set
membership. -/
def isExitCommand (text : String) : Bool :=
  exitPhrases.contains (rstripDot (lowerStr text))

/-- `Assistant._is_reset_command`: lowercase, strip trailing dots, test set
membership. -/
def isResetCommand (text : String) : Bool :=
  resetPhrases.contains (rstripDot (lowerStr text))

/-- Python `h[-k:]` on a list (note the Python quirk: `h[-0:]` is the whole
list, not the empty one). -/
def lastSlice (k : Nat) (h : List ConversationMessage) : List ConversationMessage :=
  if k = 0 then h else h.drop (h.length - k)

/-- `ConversationEngine._trim_history`: keep the last `max_history * 2`
messages once the history exceeds that many. -/
def trimHistory (maxHistory : Nat) (h : List ConversationMessage) :
    List ConversationMessage :=
  if maxHistory * 2 < h.length then lastSlice (maxHistory * 2) h else h

/-- The fixed fallback reply of `ConversationEngine.chat` on an
`anthropic.APIError`. -/
def fallbackReply : String :=
  "I'm sorry, I had trouble reaching my brain just now. Could you try again?"

/-- The reply text `chat` ends up with, as a function of the collaborator
call's outcome (`messages.create` returns text or raises an `APIError`,
which `chat` catches). -/
def apiReply (api : Except Err String) : String :=
  match api with
  | .ok r => r
  | .error _ => fallbackReply

/-- `ConversationEngine.chat`: append the user message, trim, call the
reasoning collaborator (behaviour `api`), append the assistant message, and
return the new history with the reply. -/
def chat (api : Except Err String) (maxHistory : Nat)
    (h : List ConversationMessage) (userText : String) :
    List ConversationMessage × String :=
  let h2 := trimHistory maxHistory (h ++ [⟨"user", userText⟩])
  (h2 ++ [⟨"assistant", apiReply api⟩], apiReply api)

/-- `ConversationEngine.reset`: `self._history.clear()`. -/
def resetHistory (_h : List ConversationMessage) : List ConversationMessage :=
  []

/-- Observable side effects of the orchestrator. `speak t` records an
attempted TTS call with text `t`; `stopListener g` / `startListener g` record
stop/start of wake-word detector generation `g`; `brainChat` / `brainReset`
record calls into the conversation engine. -/
inductive Event where
  | speak (text : String)
  | stopListener (gen : Nat)
  | startListener (gen : Nat)
  | brainChat (userText : String)
  | brainReset
deriving DecidableEq, Repr

/-- Behaviour of one `tts.speak` call: return a success flag (Azure returns a
Bool the orchestrator ignores), or raise. -/
inductive SpeakB where
  | ok (success : Bool)
  | raise (e : Err)
deriving DecidableEq, Repr

/-- The behaviour of every collaborator call one `_handle_wake` invocation can
make, in program order. `restartB1` is the `_restart_wake_listener` call in
the `try` block; `restartB2` the one in the `except` handler. -/
structure InteractionEnv where
  ackB : SpeakB
  captureB : Except Err TranscriptionResult
  noticeB : SpeakB
  farewellB : SpeakB
  confirmB : SpeakB
  api : Except Err String
  replyB : SpeakB
  apologyB : SpeakB
  restartB1 : Except Err Unit
  restartB2 : Except Err Unit
deriving Repr

/-- State of the `Assistant` object plus the `_running` flags of every
wake-word detector generation ever constructed. `curGen` is the generation
currently bound to `self._wake`. -/
structure AState where
  lockHeld : Bool
  running : Bool
  history : List ConversationMessage
  curGen : Nat
  genRunning : List Bool
deriving DecidableEq, Repr

/-- `Assistant.__init__`: lock free, `_running` false, empty history, detector
generation 0 constructed but not started. -/
def initState : AState :=
  { lockHeld := false, running := false, history := [], curGen := 0,
    genRunning := [false] }

/-- One `tts.speak` call: the attempt is recorded in the trace whether or not
the synthesizer raises. -/
def speakCall (b : SpeakB) (text : String) : List Event × Option Err :=
  ([Event.speak text],
   match b with
   | .ok _ => none
   | .raise e => some e)

/-- `WakeWordDetector.stop` for generation `g`: clears that detector's
`_running` flag and releases its recorder (idempotent). -/
def detectorStop (g : Nat) (s : AState) : AState × List Event :=
  ({ s with genRunning := s.genRunning.set g false }, [Event.stopListener g])

/-- `Assistant._restart_wake_listener`: a no-op when `self._running` is false;
otherwise binds `self._wake` to a brand-new detector generation, sleeps, and
starts it on a new daemon thread (the new thread's `start` sets the new
generation's `_running` flag; a failure `rb` of the restart step raises before
the new detector runs). -/
def restartWakeListener (rb : Except Err Unit) (s : AState) :
    AState × List Event × Option Err :=
  if s.running = false then (s, [], none)
  else
    let g := s.genRunning.length
    let s1 := { s with curGen := g, genRunning := s.genRunning ++ [false] }
    match rb with
    | .error e => (s1, [], some e)
    | .ok _ =>
      ({ s1 with genRunning := s1.genRunning.set g true },
       [Event.startListener g], none)

/-- The `try` block of `Assistant._handle_wake` (steps 2 to 6 of the
orchestrator contract): stop the current detector, acknowledge, capture,
dispatch on the transcript, and restart the listener. Returns the state, the
trace, and the exception escaping the block, if any. -/
def handleWakeBody (maxHistory : Nat) (env : InteractionEnv) (s : AState) :
    AState × List Event × Option Err :=
  let s := (detectorStop s.curGen s).1
  let tr0 := [Event.stopListener s.curGen]
  let ack := speakCall env.ackB "Yes?"
  match ack.2 with
  | some e => (s, tr0 ++ ack.1, some e)
  | none =>
    match env.captureB with
    | .error e => (s, tr0 ++ ack.1, some e)
    | .ok result =>
      if result.success = false ∨ stripStr result.text = "" then
        let ntc := speakCall env.noticeB "I didn't catch that."
        match ntc.2 with
        | some e => (s, tr0 ++ ack.1 ++ ntc.1, some e)
        | none =>
          let rst := restartWakeListener env.restartB1 s
          (rst.1, tr0 ++ ack.1 ++ ntc.1 ++ rst.2.1, rst.2.2)
      else
        let userText := stripStr result.text
        if isExitCommand userText then
          let fw := speakCall env.farewellB "Goodbye!"
          match fw.2 with
          | some e => (s, tr0 ++ ack.1 ++ fw.1, some e)
          | none => ({ s with running := false }, tr0 ++ ack.1 ++ fw.1, none)
        else if isResetCommand userText then
          let s2 := { s with history := resetHistory s.history }
          let cf := speakCall env.confirmB "Conversation history cleared. Fresh start!"
          match cf.2 with
          | some e => (s2, tr0 ++ ack.1 ++ [Event.brainReset] ++ cf.1, some e)
          | none =>
            let rst := restartWakeListener env.restartB1 s2
            (rst.1, tr0 ++ ack.1 ++ [Event.brainReset] ++ cf.1 ++ rst.2.1, rst.2.2)
        else
          let br := chat env.api maxHistory s.history userText
          let s2 := { s with history := br.1 }
          let sp := speakCall env.replyB br.2
          match sp.2 with
          | some e => (s2, tr0 ++ ack.1 ++ [Event.brainChat userText] ++ sp.1, some e)
          | none =>
            let rst := restartWakeListener env.restartB1 s2
            (rst.1,
             tr0 ++ ack.1 ++ [Event.brainChat userText] ++ sp.1 ++ rst.2.1,
             rst.2.2)

/-- `Assistant._handle_wake`: non-blocking lock acquisition (drop the event if
held), the `try` body, the generic `except` handler (best-effort apology with
its own errors swallowed, then a second restart attempt whose failure
propagates), and the `finally` that always releases the lock. -/
def handleWake (maxHistory : Nat) (env : InteractionEnv) (s : AState) :
    AState × List Event × Option Err :=
  if s.lockHeld then (s, [], none)
  else
    let r := handleWakeBody maxHistory env { s with lockHeld := true }
    match r.2.2 with
    | none => ({ r.1 with lockHeld := false }, r.2.1, none)
    | some _ =>
      let ap := speakCall env.apologyB "I ran into an error. Let me reset."
      let rst := restartWakeListener env.restartB2 r.1
      ({ rst.1 with lockHeld := false }, r.2.1 ++ ap.1 ++ rst.2.1, rst.2.2)

/-- How one `WakeWordDetector.start` call ends: the listen loop exited and
`start` returned, the loop is still blocked waiting for a detection, or an
exception escaped `start`. -/
inductive LoopResult where
  | finished
  | blocked
  | raised (e : Err)
deriving DecidableEq, Repr

/-- The listen loop of `WakeWordDetector.start` for detector generation `g`,
driven by a script of detection events (one `InteractionEnv` per detection).
Each detection invokes `on_wake` (= `_handle_wake`) inline on this thread;
the loop then re-checks this detector's own `_running` flag. The `finally`
of `start` stops the detector on both normal exit and an escaping
exception. -/
def detectorLoop (maxHistory : Nat) (g : Nat) (evs : List InteractionEnv)
    (s : AState) : AState × List Event × LoopResult :=
  if s.genRunning.getD g false = false then
    let st := detectorStop g s
    (st.1, st.2, LoopResult.finished)
  else
    match evs with
    | [] => (s, [], LoopResult.blocked)
    | e :: rest =>
      let r := handleWake maxHistory e s
      match r.2.2 with
      | some ex =>
        let st := detectorStop g r.1
        (st.1, r.2.1 ++ st.2, LoopResult.raised ex)
      | none =>
        let cont := detectorLoop maxHistory g rest r.1
        (cont.1, r.2.1 ++ cont.2.1, cont.2.2)

/-- `WakeWordDetector.start` for generation `g`: create the Porcupine engine
and recorder (behaviour `startB`; a failure here raises before the
`try`/`finally`), set this detector's `_running` flag, then enter the listen
loop. -/
def detectorStart (maxHistory : Nat) (startB : Except Err Unit) (g : Nat)
    (evs : List InteractionEnv) (s : AState) :
    AState × List Event × LoopResult :=
  match startB with
  | .error e => (s, [], LoopResult.raised e)
  | .ok _ =>
    let s1 := { s with genRunning := s.genRunning.set g true }
    let r := detectorLoop maxHistory g evs s1
    (r.1, Event.startListener g :: r.2.1, r.2.2)

/-- `Assistant.shutdown`: clear `_running` and stop the detector currently
bound to `self._wake`. -/
def shutdownA (s : AState) : AState × List Event :=
  detectorStop s.curGen { s with running := false }

/-- How `run()` ends from its caller's point of view. -/
inductive RunResult where
  | returned
  | blockedListening
  | raised (e : Err)
deriving DecidableEq, Repr

/-- `Assistant.run`: set `_running`, call `self._wake.start` on detector
generation 0 (blocking on the calling thread), and always run `shutdown()` in
the `finally`; a non-KeyboardInterrupt exception from `start` propagates to
the caller. `blockedListening` means `start` has not returned and `run` is
still blocked. -/
def run (maxHistory : Nat) (startB : Except Err Unit)
    (evs : List InteractionEnv) (s : AState) :
    AState × List Event × RunResult :=
  let s0 := { s with running := true }
  let r := detectorStart maxHistory startB 0 evs s0
  match r.2.2 with
  | LoopResult.blocked => (r.1, r.2.1, RunResult.blockedListening)
  | LoopResult.finished =>
    let sd := shutdownA r.1
    (sd.1, r.2.1 ++ sd.2, RunResult.returned)
  | LoopResult.raised e =>
    let sd := shutdownA r.1
    (sd.1, r.2.1 ++ sd.2, RunResult.raised e)

/-- A detection event in which every collaborator behaves: capture succeeds
with the given transcript and the reasoning collaborator replies. -/
def benignEnv (transcript : String) (reply : String) : InteractionEnv :=
  { ackB := .ok true, captureB := .ok { text := transcript, success := true },
    noticeB := .ok true, farewellB := .ok true, confirmB := .ok true,
    api := .ok reply, replyB := .ok true, apologyB := .ok true,
    restartB1 := .ok (), restartB2 := .ok () }

/-- `chat` iterated from an empty session: interaction `i` (counting from 1)
sends user text `"u" ++ toString i` and the reasoning collaborator replies
`"a" ++ toString i`. -/
def chatSeq (maxHistory : Nat) : Nat → List ConversationMessage
  | 0 => []
  | k + 1 =>
    (chat (.ok ("a" ++ toString (k + 1))) maxHistory (chatSeq maxHistory k)
      ("u" ++ toString (k + 1))).1

/-- The assistant as seen by a detection callback during the Listening phase:
lock free, `_running` true, detector generation 0 listening. -/
def listeningState : AState :=
  { initState with running := true, genRunning := [true] }

/-- A detection event whose speech capture raises. -/
def envCaptureRaises : InteractionEnv :=
  { benignEnv "hello" "hi" with captureB := .error "mic fail" }

/-- A detection event for which the reasoning collaborator raises an
APIError. -/
def envApiError : InteractionEnv :=
  { benignEnv "what time is it" "unused" with api := .error "quota exceeded" }

/-- A detection event whose capture reports `NoMatch`. -/
def envNoMatch : InteractionEnv :=
  { benignEnv "" "unused" with
    captureB := .ok { text := "", success := false, reason := "no_match" } }

/-- A detection event whose first listener-restart attempt raises. -/
def envRestartFails (e : Err) : InteractionEnv :=
  { benignEnv "hello" "hi" with restartB1 := .error e }

/-- A detection event whose listener-restart attempt raises in the `try`
block and again in the `except` handler. -/
def envBothRestartsFail (e1 e2 : Err) : InteractionEnv :=
  { benignEnv "hello" "hi" with restartB1 := .error e1, restartB2 := .error e2 }

/-- Auxiliary: `_trim_history` keeps `min (maxHistory * 2)` of the current
length once `maxHistory ≥ 1` (the Python `h[-0:]` quirk excludes
`maxHistory = 0`). -/
theorem trimHistory_length (m : Nat) (h : List ConversationMessage)
    (hm : 1 ≤ m) : (trimHistory m h).length = min (m * 2) h.length := by
  unfold trimHistory lastSlice
  split
  · split
    · omega
    · simp only [List.length_drop]
      rename_i hc hk
      omega
  · rename_i hc
    omega

/-- C1: a wake detection (`_handle_wake`) that finds the InteractionLock
already held returns immediately with zero observable side effects: the state
(dialogue session, listener generations, running flag) is unchanged, the
trace is empty, and no exception escapes — so at most one interaction is ever
mid-flight. -/
theorem C1_lock_held_detection_dropped (maxHistory : Nat)
    (env : InteractionEnv) (s : AState) (h : s.lockHeld = true) :
    handleWake maxHistory env s = (s, [], none) := by
  unfold handleWake
  simp [h]

/-- C1 witness: a concrete detection arriving while the lock is held is
dropped without side effects. -/
theorem C1_lock_held_detection_dropped_witness :
    ({ listeningState with lockHeld := true } : AState).lockHeld = true ∧
    handleWake 20 (benignEnv "hello" "hi") { listeningState with lockHeld := true } =
      ({ listeningState with lockHeld := true }, [], none) :=
  ⟨rfl, C1_lock_held_detection_dropped 20 (benignEnv "hello" "hi")
    { listeningState with lockHeld := true } rfl⟩

/-- C2 (code bug): one interaction whose transcript does NOT match the exit
set already makes `run()` return. `_handle_wake` stops the very detector
whose blocking `start()` call `run()` is waiting on, so after the interaction
that `start()` returns, `run`'s `finally` calls `shutdown()` (stopping the
freshly started generation-1 listener), and `run()` returns — the trace below
shows the replacement listener being started (`startListener 1`) and then
immediately shut down (`stopListener 1`). -/
theorem C2_run_returns_after_nonexit_interaction :
    isExitCommand "hello" = false ∧
    run 20 (.ok ()) [benignEnv "hello" "hi there"] initState =
      ({ lockHeld := false, running := false,
         history := [⟨"user", "hello"⟩, ⟨"assistant", "hi there"⟩],
         curGen := 1, genRunning := [false, false] },
       [Event.startListener 0, Event.stopListener 0, Event.speak "Yes?",
        Event.brainChat "hello", Event.speak "hi there", Event.startListener 1,
        Event.stopListener 0, Event.stopListener 1],
       RunResult.returned) :=
  ⟨by decide, by decide⟩

/-- C3: the InteractionLock is released on every exit path of `_handle_wake`
(first conjunct), and any exception escaping the `try` body (capture,
speaking, or any other step) is caught: exactly one best-effort apology is
attempted right after the body's trace (whatever the apology call itself
does, its own failure being swallowed), the interaction falls through to the
listener restart, the lock ends released, and only a failure of that restart
attempt can escape. -/
theorem C3_downstream_failure_recovery :
    (∀ (m : Nat) (env : InteractionEnv) (s : AState),
        (handleWake m env s).1.lockHeld = s.lockHeld) ∧
    (∀ (m : Nat) (env : InteractionEnv) (s : AState) (e : Err),
        s.lockHeld = false →
        (handleWakeBody m env { s with lockHeld := true }).2.2 = some e →
        (handleWake m env s).2.1 =
          (handleWakeBody m env { s with lockHeld := true }).2.1 ++
            [Event.speak "I ran into an error. Let me reset."] ++
            (restartWakeListener env.restartB2
              (handleWakeBody m env { s with lockHeld := true }).1).2.1 ∧
        (handleWake m env s).1 =
          { (restartWakeListener env.restartB2
              (handleWakeBody m env { s with lockHeld := true }).1).1 with
            lockHeld := false } ∧
        (handleWake m env s).2.2 =
          (restartWakeListener env.restartB2
            (handleWakeBody m env { s with lockHeld := true }).1).2.2) := by
  constructor
  · intro m env s
    unfold handleWake
    by_cases hl : s.lockHeld
    · simp [hl]
    · simp only [hl]
      rcases hr : (handleWakeBody m env { s with lockHeld := true }).2.2 with _ | e <;>
        simp [hr, hl]
  · intro m env s e hfree herr
    unfold handleWake
    simp [hfree, herr, speakCall]

/-- C3 witness: a concrete capture failure is recovered — one apology, then
the restart, lock released. -/
theorem C3_downstream_failure_recovery_witness :
    listeningState.lockHeld = false ∧
    (handleWakeBody 20 envCaptureRaises { listeningState with lockHeld := true }).2.2 =
      some "mic fail" ∧
    (handleWake 20 envCaptureRaises listeningState).2.1 =
      (handleWakeBody 20 envCaptureRaises { listeningState with lockHeld := true }).2.1 ++
        [Event.speak "I ran into an error. Let me reset."] ++
        (restartWakeListener envCaptureRaises.restartB2
          (handleWakeBody 20 envCaptureRaises
            { listeningState with lockHeld := true }).1).2.1 ∧
    (handleWake 20 envCaptureRaises listeningState).1.lockHeld =
      listeningState.lockHeld :=
  ⟨rfl, rfl,
   (C3_downstream_failure_recovery.2 20 envCaptureRaises listeningState
     "mic fail" rfl rfl).1,
   C3_downstream_failure_recovery.1 20 envCaptureRaises listeningState⟩

/-- C4 counterexample: with `maxPairs = 2`, ten `chat` calls leave five
messages in the session, not four. -/
theorem C4_ten_chats_counterexample : (chatSeq 2 10).length ≠ 4 := by decide

/-- C4 amended: with `maxPairs = 2`, ten `chat` calls leave exactly five
messages — the two most recent complete pairs plus the assistant reply of the
pair before them, so trimming DOES split a user/assistant pair (the oldest
survivor is a lone assistant message). In general (for `maxPairs ≥ 1`) the
session holds at most `2 * maxPairs + 1` messages after any `chat` call,
because `_trim_history` runs only after the user append and the assistant
append lands untrimmed. -/
theorem C4_trim_amended :
    chatSeq 2 10 =
      [⟨"assistant", "a8"⟩, ⟨"user", "u9"⟩, ⟨"assistant", "a9"⟩,
       ⟨"user", "u10"⟩, ⟨"assistant", "a10"⟩] ∧
    (∀ (api : Except Err String) (m : Nat) (h : List ConversationMessage)
        (t : String), 1 ≤ m → (chat api m h t).1.length ≤ 2 * m + 1) := by
  constructor
  · decide
  · intro api m h t hm
    simp only [chat, List.length_append, List.length_cons, List.length_nil]
    rw [trimHistory_length m _ hm]
    simp only [List.length_append, List.length_cons, List.length_nil]
    omega

/-- C4 amended witness: the length bound at a concrete input. -/
theorem C4_trim_amended_witness :
    (1 : Nat) ≤ 2 ∧ (chat (.ok "pong") 2 (chatSeq 2 10) "ping").1.length ≤ 2 * 2 + 1 :=
  ⟨by decide, C4_trim_amended.2 (.ok "pong") 2 (chatSeq 2 10) "ping" (by decide)⟩

/-- C5: `chat` never raises and always returns speakable text: for every
behaviour of the reasoning collaborator it returns `apiReply api` and appends
exactly that text as the assistant message; on a collaborator failure the
reply is the fixed fallback apology, appended to the history as the last
(assistant) message; and an interaction whose reasoning call fails still
completes normally, speaking the fallback. -/
theorem C5_chat_total_with_fallback :
    (∀ (api : Except Err String) (m : Nat) (h : List ConversationMessage)
        (t : String),
        chat api m h t =
          (trimHistory m (h ++ [⟨"user", t⟩]) ++ [⟨"assistant", apiReply api⟩],
           apiReply api)) ∧
    (∀ (e : Err) (m : Nat) (h : List ConversationMessage) (t : String),
        (chat (.error e) m h t).2 = fallbackReply ∧
        (chat (.error e) m h t).1.getLast? = some ⟨"assistant", fallbackReply⟩) ∧
    (handleWake 20 envApiError listeningState).2.2 = none ∧
    Event.speak fallbackReply ∈ (handleWake 20 envApiError listeningState).2.1 := by
  refine ⟨fun api m h t => rfl, fun e m h t => ⟨rfl, ?_⟩, by decide, by decide⟩
  simp [chat, apiReply]

/-- C6: the transcript `"goodbye."` is normalized to `"goodbye"`, matches the
exit set, the orchestrator speaks a farewell, clears `_running` (Exiting), and
never starts a new ListenerHandle (generation 1 is never started), and `run()`
returns. -/
theorem C6_goodbye_exit_scenario :
    rstripDot (lowerStr "goodbye.") = "goodbye" ∧
    isExitCommand "goodbye." = true ∧
    run 20 (.ok ()) [benignEnv "goodbye." "ignored"] initState =
      ({ lockHeld := false, running := false, history := [], curGen := 0,
         genRunning := [false] },
       [Event.startListener 0, Event.stopListener 0, Event.speak "Yes?",
        Event.speak "Goodbye!", Event.stopListener 0, Event.stopListener 0],
       RunResult.returned) ∧
    Event.startListener 1 ∉
      (run 20 (.ok ()) [benignEnv "goodbye." "ignored"] initState).2.1 := by
  refine ⟨by decide, by decide, by decide, by decide⟩

/-- C7: a `"reset conversation"` transcript clears the dialogue session,
speaks a confirmation, makes no reasoning call (no `brainChat` event), and
starts a new ListenerHandle (generation 1); and `reset()` followed by
`respond("hi")` yields exactly one user/assistant pair, for every collaborator
behaviour and history cap. -/
theorem C7_reset_scenario :
    handleWake 20 (benignEnv "reset conversation" "ignored")
        { listeningState with history := [⟨"user", "a"⟩, ⟨"assistant", "b"⟩] } =
      ({ lockHeld := false, running := true, history := [], curGen := 1,
         genRunning := [false, true] },
       [Event.stopListener 0, Event.speak "Yes?", Event.brainReset,
        Event.speak "Conversation history cleared. Fresh start!",
        Event.startListener 1],
       none) ∧
    (∀ (h : List ConversationMessage) (api : Except Err String) (m : Nat),
        (chat api m (resetHistory h) "hi").1 =
          [⟨"user", "hi"⟩, ⟨"assistant", apiReply api⟩]) := by
  constructor
  · decide
  · intro h api m
    cases m with
    | zero => rfl
    | succ n =>
      simp only [resetHistory, chat, trimHistory, lastSlice, List.nil_append]
      rw [if_neg]
      · rfl
      · simp only [List.length_cons, List.length_nil]
        omega

/-- C8: whenever the capture outcome is a failure (`NoMatch` or `Canceled`,
i.e. `success = false`), the orchestrator speaks the "didn't catch that"
notice, makes no reasoning call, leaves the dialogue session unchanged, and
goes directly to restarting the listener (a fresh generation is started). -/
theorem C8_failed_capture_notice (m : Nat) (env0 : InteractionEnv) (s : AState)
    (r : TranscriptionResult) (b1 b2 : Bool)
    (hfail : r.success = false) (hfree : s.lockHeld = false)
    (hrun : s.running = true) :
    handleWake m
      { env0 with
        ackB := .ok b1
        captureB := .ok r
        noticeB := .ok b2
        restartB1 := .ok () } s =
      ({ s with
         lockHeld := false
         curGen := s.genRunning.length
         genRunning := (s.genRunning.set s.curGen false ++ [false]).set
           s.genRunning.length true },
       [Event.stopListener s.curGen, Event.speak "Yes?",
        Event.speak "I didn't catch that.",
        Event.startListener s.genRunning.length],
       none) := by
  simp [handleWake, handleWakeBody, speakCall, detectorStop,
    restartWakeListener, hfail, hfree, hrun]

/-- C8 witness: the `NoMatch` outcome at a concrete state. -/
theorem C8_failed_capture_notice_witness :
    ({ text := "", success := false, reason := "no_match" } :
        TranscriptionResult).success = false ∧
    listeningState.lockHeld = false ∧
    listeningState.running = true ∧
    handleWake 20
      { benignEnv "x" "y" with
        ackB := .ok true
        captureB := .ok { text := "", success := false, reason := "no_match" }
        noticeB := .ok true
        restartB1 := .ok () } listeningState =
      ({ lockHeld := false, running := true, history := [], curGen := 1,
         genRunning := [false, true] },
       [Event.stopListener 0, Event.speak "Yes?",
        Event.speak "I didn't catch that.", Event.startListener 1],
       none) :=
  ⟨rfl, rfl, rfl,
   C8_failed_capture_notice 20 (benignEnv "x" "y") listeningState
     { text := "", success := false, reason := "no_match" } true true
     rfl rfl rfl⟩

/-- C9 counterexample: a listener-restart failure during the Restarting
transition is NOT propagated to `run()`'s caller: it is swallowed by the
generic interaction handler (apology spoken, restart retried) and the
concrete `run` still returns normally instead of raising. -/
theorem C9_restart_failure_swallowed_counterexample :
    (handleWake 20 (envRestartFails "device busy") listeningState).2.2 = none ∧
    Event.speak "I ran into an error. Let me reset." ∈
      (handleWake 20 (envRestartFails "device busy") listeningState).2.1 ∧
    (run 20 (.ok ()) [envRestartFails "device busy"] initState).2.2 =
      RunResult.returned := by
  refine ⟨by decide, by decide, by decide⟩

/-- C9 amended: a failure while starting the initial listener inside `run()`
does propagate to `run()`'s caller; but a restart failure inside an
interaction is caught by the generic handler (apology, retry) and only a
failure of that second restart attempt propagates out to `run()`'s caller. -/
theorem C9_listener_failure_paths_amended :
    (∀ (e : Err) (evs : List InteractionEnv),
        (run 20 (.error e) evs initState).2.2 = RunResult.raised e) ∧
    (∀ e : Err,
        (handleWake 20 (envRestartFails e) listeningState).2.2 = none) ∧
    (∀ e1 e2 : Err,
        (run 20 (.ok ()) [envBothRestartsFail e1 e2] initState).2.2 =
          RunResult.raised e2) :=
  ⟨fun _ _ => rfl, fun _ => rfl, fun _ _ => rfl⟩

/-- C10: exit/reset detection is exact whole-string equality after lowering
and stripping only trailing dots: membership in the fixed sets is equivalent
to literal equality with one of the phrases; substring containment (e.g.
`"goodbye friend"`), non-dot trailing punctuation, and leading dots do not
match, and a containing-but-not-equal transcript is sent to reasoning with
the loop still running. -/
theorem C10_exact_phrase_matching :
    (∀ t : String, isExitCommand t = true ↔
        (rstripDot (lowerStr t) = "goodbye" ∨ rstripDot (lowerStr t) = "shut down" ∨
         rstripDot (lowerStr t) = "exit" ∨ rstripDot (lowerStr t) = "quit" ∨
         rstripDot (lowerStr t) = "power off" ∨
         rstripDot (lowerStr t) = "go to sleep")) ∧
    (∀ t : String, isResetCommand t = true ↔
        (rstripDot (lowerStr t) = "reset conversation" ∨
         rstripDot (lowerStr t) = "clear history" ∨
         rstripDot (lowerStr t) = "start over" ∨
         rstripDot (lowerStr t) = "new conversation")) ∧
    isExitCommand "goodbye friend" = false ∧
    isResetCommand "goodbye friend" = false ∧
    isExitCommand "goodbye!" = false ∧
    isExitCommand "...goodbye" = false ∧
    isExitCommand "goodbye..." = true ∧
    Event.brainChat "goodbye friend" ∈
      (handleWake 20 (benignEnv "goodbye friend" "nice to meet you")
        listeningState).2.1 ∧
    (handleWake 20 (benignEnv "goodbye friend" "nice to meet you")
        listeningState).1.running = true := by
  refine ⟨fun t => ?_, fun t => ?_, by decide, by decide, by decide, by decide,
    by decide, by decide, by decide⟩
  · simp [isExitCommand, exitPhrases]
  · simp [isResetCommand, resetPhrases]

end AIWalt
